import Mathlib

/-!
Verification of the data-enrichment pipeline of the Utah Building Trends
Explorer (envision-ut-gis-webtool).

The development shallowly embeds the pipeline code:
  * `src/utils/census_api.py` (`load_crime_table`): GEOID construction from
    zero-padded components, the non-12-character warning, and the upstream
    suppression-sentinel repair (`-666666666` rewritten to missing);
  * `src/utils/data_prep.py` (`classify_growth_tier`,
    `build_enriched_dataset`): the Gazetteer inner join, county enrichment,
    derived-ratio computation with the fill-missing-with-zero policy, tier
    classification, the weighted state benchmark, the Opportunity Atlas
    left join, the display-sentinel fill, and the final coordinate gate;
  * `src/config.py` (`GROWTH_TIERS`);
  * `src/utils/popup.py` (`format_value`).

Numeric cell values are modelled as `Option ℚ` (`none` stands for a missing
value, i.e. pandas `NaN`); tables are ordered lists of rows, and pandas
merges are modelled with their documented semantics (left-row order, one
output row per matching pair, `how="inner"` vs `how="left"`).  Warnings the
code logs are returned as explicit optional counts.
-/

/-- Python `str.zfill` restricted to unsigned digit strings: left-pad with
zeros up to width `n`; longer strings are returned unchanged. -/
def zfill (n : Nat) (s : String) : String :=
  if s.length < n then String.mk (List.replicate (n - s.length) '0') ++ s else s

/-- Missing-numeric coalescing: `pd.to_numeric(...).fillna(0)` turns a
missing cell into `0` before arithmetic. -/
def coalesce0 (x : Option ℚ) : ℚ := x.getD 0

/-- One entry of the `GROWTH_TIERS` configuration (`src/config.py`). -/
structure Tier where
  label : String
  min : ℚ
  max : ℚ
  color : String
deriving DecidableEq, Repr

/-- `GROWTH_TIERS` from `src/config.py`: five ordered tiers over the
fraction of housing stock built since 2020. -/
def GROWTH_TIERS : List Tier :=
  [ ⟨"Minimal new construction", 0, 1/100, "#D9D9D9"⟩,
    ⟨"Some new construction", 1/100, 3/100, "#A6BDDB"⟩,
    ⟨"Moderate growth", 3/100, 7/100, "#3690C0"⟩,
    ⟨"High growth", 7/100, 15/100, "#0570B0"⟩,
    ⟨"Construction hotspot", 15/100, 1, "#034E7B"⟩ ]

/-- The reserved "No data" (label, color) pair returned by
`classify_growth_tier` for null/negative/unmatched ratios. -/
def noDataTier : String × String := ("No data", "#CCCCCC")

/-- The `for tier in tiers` loop of `classify_growth_tier`
(`src/utils/data_prep.py` lines 64-71): the tier equal to `tiers[-1]` uses a
closed upper bound, every other tier a half-open one; falling off the end of
the loop yields the fall-through "No data" result. -/
def classifyLoop (x : ℚ) (last : Tier) : List Tier → String × String
  | [] => noDataTier
  | t :: rest =>
    if t = last then
      if t.min ≤ x ∧ x ≤ t.max then (t.label, t.color) else classifyLoop x last rest
    else
      if t.min ≤ x ∧ x < t.max then (t.label, t.color) else classifyLoop x last rest

/-- `classify_growth_tier` (`src/utils/data_prep.py` lines 56-73).  A `none`
ratio models a pandas `NaN` (`pd.isna`); negative ratios and ratios matching
no tier return the "No data" pair.  With an empty tier list the Python loop
body never runs, so the fall-through result is returned. -/
def classify_growth_tier (pct : Option ℚ) (tiers : List Tier) : String × String :=
  match pct with
  | none => noDataTier
  | some x =>
    if x < 0 then noDataTier
    else
      match tiers.getLast? with
      | none => noDataTier
      | some last => classifyLoop x last tiers

/-- A row of the primary statistics table as handed to
`build_enriched_dataset` (columns after `load_crime_table` renaming).
Numeric cells are `Option ℚ`; `none` is a missing value. -/
structure AcsRow where
  geoid : String
  lat : Option ℚ
  lon : Option ℚ
  built2020 : Option ℚ
  totalUnits : Option ℚ
  owner : Option ℚ
  renter : Option ℚ
  bach : Option ℚ
  mast : Option ℚ
  prof : Option ℚ
  doct : Option ℚ
  pop : Option ℚ
  u1019 : Option ℚ
  u2049 : Option ℚ
  u50 : Option ℚ
  homeValue : Option ℚ
  income : Option ℚ
deriving DecidableEq, Repr

/-- A row of the Gazetteer centroid table (`geoid`, `lat`, `lon`). -/
structure GazRow where
  geoid : String
  lat : Option ℚ
  lon : Option ℚ
deriving DecidableEq, Repr

/-- A row of the Opportunity Atlas table (`tract_fips`, `mobility_score`). -/
structure OaRow where
  tract : String
  score : Option ℚ
deriving DecidableEq, Repr

/-- A row of the enriched output dataset: every column
`build_enriched_dataset` reads or writes downstream of step 3.  The raw
measures carry the post-`fillna(0)` values, as in the returned frame. -/
structure EnrichedRow where
  geoid : String
  lat : Option ℚ
  lon : Option ℚ
  county_fips : String
  county_name : String
  built2020 : ℚ
  totalUnits : ℚ
  owner : ℚ
  renter : ℚ
  bach : ℚ
  mast : ℚ
  prof : ℚ
  doct : ℚ
  pop : ℚ
  u1019 : ℚ
  u2049 : ℚ
  u50 : ℚ
  pct_new_housing : ℚ
  pct_renter : ℚ
  pct_college : ℚ
  units_10_plus : ℚ
  tier_label : String
  tier_color : String
  state_avg_pct_new : ℚ
  mobility_score : Option ℚ
  median_home_value : Option ℚ
  median_hh_income : Option ℚ
deriving DecidableEq, Repr

/-- Step 1 Gazetteer merge (`src/utils/data_prep.py` lines 101-116): both
keys are zero-filled to 12 characters and the tables are merged with
`how="inner"` — each primary row pairs with every Gazetteer row carrying the
same GEOID, in left order, taking `lat`/`lon` from the Gazetteer. -/
def coordJoin (acs : List AcsRow) (gaz : List GazRow) : List AcsRow :=
  let gazN := gaz.map (fun g => { g with geoid := zfill 12 g.geoid })
  (acs.map (fun a => { a with geoid := zfill 12 a.geoid })).flatMap
    (fun a => (gazN.filter (fun g => g.geoid == a.geoid)).map
      (fun g => { a with lat := g.lat, lon := g.lon }))

/-- Step 1 dispatch: the merge runs only when a Gazetteer table is supplied
and the primary table has no `lat` column (`hasLat = false`); otherwise the
primary rows pass through unchanged. -/
def step1 (hasLat : Bool) (acs : List AcsRow) (gaz : Option (List GazRow)) :
    List AcsRow :=
  match gaz, hasLat with
  | some g, false => coordJoin acs g
  | _, _ => acs

/-- `county_fips_from_geoid` (`src/utils/data_prep.py` line 51). -/
def county_fips_from_geoid (geoid : String) : String := geoid.take 5

/-- The county-lookup `.map(...).fillna("Unknown County")` of step 2, over
an association list modelling the lookup dict. -/
def lookupCounty (lookup : List (String × String)) (fips : String) : String :=
  match lookup.find? (fun p => p.1 == fips) with
  | some p => p.2
  | none => "Unknown County"

/-- Step 5 state benchmark (`src/utils/data_prep.py` lines 170-173):
`built_2020_plus` and `total_housing_units` are summed over the working
rows after `fillna(0)`; a non-positive unit total yields `0.0`. -/
def stateAvgOf (rows : List AcsRow) : ℚ :=
  let totalBuilt := (rows.map (fun a => coalesce0 a.built2020)).sum
  let totalUnits := (rows.map (fun a => coalesce0 a.totalUnits)).sum
  if 0 < totalUnits then totalBuilt / totalUnits else 0

/-- Steps 2-5 applied to one working row: GEOID zero-fill, county fields,
`fillna(0)` on the measures, the three ratio columns with their
zero-denominator guards (`np.where(denom > 0, num/denom, 0.0)`),
`units_10_plus`, tier classification, and the broadcast benchmark. -/
def enrichRow (lookup : List (String × String)) (tiers : List Tier)
    (stateAvg : ℚ) (a : AcsRow) : EnrichedRow :=
  let g := zfill 12 a.geoid
  let built := coalesce0 a.built2020
  let total := coalesce0 a.totalUnits
  let own := coalesce0 a.owner
  let rent := coalesce0 a.renter
  let b := coalesce0 a.bach
  let m := coalesce0 a.mast
  let pr := coalesce0 a.prof
  let d := coalesce0 a.doct
  let tp := coalesce0 a.pop
  let pctNew := if 0 < total then built / total else 0
  let rentDenom := own + rent
  let pctRent := if 0 < rentDenom then rent / rentDenom else 0
  let college := b + m + pr + d
  let pctColl := if 0 < tp then college / tp else 0
  let tier := classify_growth_tier (some pctNew) tiers
  { geoid := g
    lat := a.lat
    lon := a.lon
    county_fips := county_fips_from_geoid g
    county_name := lookupCounty lookup (county_fips_from_geoid g)
    built2020 := built
    totalUnits := total
    owner := own
    renter := rent
    bach := b
    mast := m
    prof := pr
    doct := d
    pop := tp
    u1019 := coalesce0 a.u1019
    u2049 := coalesce0 a.u2049
    u50 := coalesce0 a.u50
    pct_new_housing := pctNew
    pct_renter := pctRent
    pct_college := pctColl
    units_10_plus := coalesce0 a.u1019 + coalesce0 a.u2049 + coalesce0 a.u50
    tier_label := tier.1
    tier_color := tier.2
    state_avg_pct_new := stateAvg
    mobility_score := none
    median_home_value := a.homeValue
    median_hh_income := a.income }

/-- Step 6 Opportunity Atlas merge for one left row: `how="left"` pairs the
row with every Atlas row whose zero-filled 11-character tract key equals the
row's `GEOID[:11]`; an unmatched row survives once with a missing score. -/
def oaMergeRow (oa : List OaRow) (r : EnrichedRow) : List EnrichedRow :=
  match oa.filter (fun o => zfill 11 o.tract == r.geoid.take 11) with
  | [] => [{ r with mobility_score := none }]
  | ms => ms.map (fun o => { r with mobility_score := o.score })

/-- Step 6 dispatch (`src/utils/data_prep.py` lines 177-184): the mobility
join runs only when an Opportunity Atlas table is supplied. -/
def step6 (oa : Option (List OaRow)) (rows : List EnrichedRow) :
    List EnrichedRow :=
  match oa with
  | none => rows
  | some o => rows.flatMap (oaMergeRow o)

/-- The score a unique-keyed Atlas table assigns to a tract key: the score
of the first matching row, or missing when no row matches. -/
def oaScoreLookup (oa : List OaRow) (k : String) : Option ℚ :=
  match oa.filter (fun o => zfill 11 o.tract == k) with
  | [] => none
  | o :: _ => o.score

/-- Step 7 display-sentinel fill (`src/utils/data_prep.py` lines 187-190):
missing `median_home_value` / `median_hh_income` become the display
sentinel `-1` for downstream "N/A" rendering. -/
def step7 (r : EnrichedRow) : EnrichedRow :=
  { r with
    median_home_value := some (r.median_home_value.getD (-1))
    median_hh_income := some (r.median_hh_income.getD (-1)) }

/-- Bool-valued coordinate completeness of a row, as used by the final
`dropna(subset=["lat", "lon"])` gate. -/
def hasCoords (r : EnrichedRow) : Bool := r.lat.isSome && r.lon.isSome

/-- The value returned by `build_enriched_dataset` together with the two
warnings it logs: the Gazetteer unmatched-row count (line 113, logged only
when the merge changed the row count) and the dropped
missing-coordinate count (line 195, logged only when positive). -/
structure PipelineResult where
  rows : List EnrichedRow
  state_avg_pct_new : ℚ
  gazDropped : Option ℤ
  coordDropped : Option ℕ
deriving Repr

/-- `build_enriched_dataset` (`src/utils/data_prep.py` lines 76-204).
`hasLat` states whether the primary table already carries a `lat` column;
`gaz` and `oa` are the optional Gazetteer and Opportunity Atlas tables. -/
def build_enriched_dataset (hasLat : Bool) (acs : List AcsRow)
    (gaz : Option (List GazRow)) (lookup : List (String × String))
    (oa : Option (List OaRow)) (tiers : List Tier) : PipelineResult :=
  let joined := step1 hasLat acs gaz
  let gazWarn : Option ℤ :=
    match gaz, hasLat with
    | some _, false =>
      if acs.length ≠ joined.length
      then some ((acs.length : ℤ) - (joined.length : ℤ)) else none
    | _, _ => none
  let avg := stateAvgOf joined
  let enriched := joined.map (enrichRow lookup tiers avg)
  let merged := step6 oa enriched
  let filled := merged.map step7
  let droppedCount := (filled.filter (fun r => !(hasCoords r))).length
  { rows := filled.filter hasCoords
    state_avg_pct_new := avg
    gazDropped := gazWarn
    coordDropped := if 0 < droppedCount then some droppedCount else none }

/-- A raw `CrimeTable.csv` row as read by `load_crime_table`
(`src/utils/census_api.py` lines 19-127): the four GEOID component columns
as strings, and the numeric columns after `pd.to_numeric(errors="coerce")`
but before sentinel replacement. -/
structure CrimeRawRow where
  statefp : String
  countyfp : String
  tractce : String
  blkgrpce : String
  lat : Option ℚ
  lon : Option ℚ
  built2020 : Option ℚ
  totalUnits : Option ℚ
  owner : Option ℚ
  renter : Option ℚ
  bach : Option ℚ
  gradDeg : Option ℚ
  pop : Option ℚ
  u1019 : Option ℚ
  u2049 : Option ℚ
  u50 : Option ℚ
  homeValue : Option ℚ
  income : Option ℚ
deriving DecidableEq, Repr

/-- GEOID construction of `load_crime_table` (lines 37-42): each component
is zero-filled independently and the results concatenated. -/
def buildGeoid (r : CrimeRawRow) : String :=
  zfill 2 r.statefp ++ zfill 3 r.countyfp ++ zfill 6 r.tractce ++ zfill 1 r.blkgrpce

/-- `df.replace(-666666666, np.nan)` (line 119) on one cell: the upstream
suppression sentinel becomes a missing value. -/
def repairSentinel (x : Option ℚ) : Option ℚ :=
  if x = some (-666666666) then none else x

/-- One output row of `load_crime_table`: GEOID built from components,
`masters := grad_degree`, `professional_degree := 0`, `doctorate := 0`
(lines 94-96), and the suppression sentinel repaired in every numeric
column (line 119). -/
def crimeToAcs (r : CrimeRawRow) : AcsRow :=
  { geoid := buildGeoid r
    lat := repairSentinel r.lat
    lon := repairSentinel r.lon
    built2020 := repairSentinel r.built2020
    totalUnits := repairSentinel r.totalUnits
    owner := repairSentinel r.owner
    renter := repairSentinel r.renter
    bach := repairSentinel r.bach
    mast := repairSentinel r.gradDeg
    prof := some 0
    doct := some 0
    pop := repairSentinel r.pop
    u1019 := repairSentinel r.u1019
    u2049 := repairSentinel r.u2049
    u50 := repairSentinel r.u50
    homeValue := repairSentinel r.homeValue
    income := repairSentinel r.income }

/-- The value of `load_crime_table`: the standardized rows plus the
non-12-character GEOID warning of lines 45-47 (logged with the offending
row count; the function then proceeds normally). -/
structure LoadResult where
  rows : List AcsRow
  badGeoidWarning : Option ℕ
deriving Repr

/-- `load_crime_table` (`src/utils/census_api.py` lines 19-127), cache-miss
path, modelled from the parsed CSV rows onward. -/
def load_crime_table (raw : List CrimeRawRow) : LoadResult :=
  let bad := (raw.filter (fun r => (buildGeoid r).length != 12)).length
  { rows := raw.map crimeToAcs
    badGeoidWarning := if 0 < bad then some bad else none }

/-- A Python value as seen by `format_value`, classified by how the
function's guards and `float()` treat it: `None`; a float `NaN` (caught by
the `isinstance(value, float) and math.isnan(value)` guard); a value
converting to a finite float (exact-rational idealization); a value
converting to an infinite float, positive or negative (the float
`inf`/`-inf` itself, which passes the `isnan` guard, or a string such as
`"inf"`); a non-float value that `float()` converts to `NaN` (such as the
string `"nan"`, which slips past the float-instance guard); and a value on
which `float()` raises `ValueError`/`TypeError`. -/
inductive PyVal where
  | pnone
  | pnan
  | num (q : ℚ)
  | pinf (neg : Bool)
  | nanConv
  | nonNumeric
deriving DecidableEq, Repr

/-- Python `int(...)` on a (rational-valued) float: truncation toward 0. -/
def pytrunc (q : ℚ) : ℤ := q.num.tdiv (q.den : ℤ)

/-- Insert a thousands separator every three digits, walking a reversed
digit list (the helper behind Python's `f"{n:,}"`). -/
def chunkRev : List Char → List Char
  | c1 :: c2 :: c3 :: c4 :: rest => c1 :: c2 :: c3 :: ',' :: chunkRev (c4 :: rest)
  | l => l

/-- Python `f"{n:,}"` for an integer: digits grouped in threes by commas,
with a leading minus sign for negative values. -/
def commaFmt (n : ℤ) : String :=
  let grouped := String.mk (chunkRev (toString n.natAbs).toList.reverse).reverse
  if n < 0 then "-" ++ grouped else grouped

/-- Python round-half-to-even to an integer, as used by `f"{x:.0f}"`. -/
def roundHalfEven (q : ℚ) : ℤ :=
  let f := q.num.ediv (q.den : ℤ)
  let r := q - (f : ℚ)
  if r < 1/2 then f
  else if 1/2 < r then f + 1
  else if f % 2 = 0 then f else f + 1

/-- The non-"N/A" arm of `format_value` (`src/utils/popup.py` lines 33-37):
a `"$"` prefix formats the truncated value with commas after a dollar sign,
a `"%"` suffix formats with `:.0f` and a percent sign, and otherwise the
truncated comma-grouped value sits between prefix and suffix. -/
def formatNumber (q : ℚ) (pre suf : String) : String :=
  if pre = "$" then "$" ++ commaFmt (pytrunc q)
  else if suf = "%" then toString (roundHalfEven q) ++ "%"
  else pre ++ commaFmt (pytrunc q) ++ suf

/-- `format_value` (`src/utils/popup.py` lines 25-39).  `na_sentinel` is
`Option ℚ` because Python allows passing `None` to disable the sentinel
check; the Python default is `-1`.  The function can raise: its `except`
clause catches only `ValueError` and `TypeError`, so `int(num)` on an
infinite float raises an uncaught `OverflowError` — modelled as `.error`
naming the exception, while a normal return is `.ok`.  An infinite or
`NaN` float compares unequal to any (finite) `na_sentinel`; with the `"%"`
suffix, `f"{num:.0f}"` formats an infinite value as `inf`/`-inf` and a
`NaN` as `nan` instead of raising; `int(NaN)` raises `ValueError`, which
the `except` clause does catch. -/
def format_value (value : PyVal) (pre suf : String)
    (na_sentinel : Option ℚ) : Except String String :=
  match value with
  | .pnone => .ok "N/A"
  | .pnan => .ok "N/A"
  | .nonNumeric => .ok "N/A"
  | .pinf neg =>
    if pre = "$" then .error "OverflowError"
    else if suf = "%" then .ok ((if neg then "-inf" else "inf") ++ "%")
    else .error "OverflowError"
  | .nanConv =>
    if pre = "$" then .ok "N/A"
    else if suf = "%" then .ok "nan%"
    else .ok "N/A"
  | .num q =>
    match na_sentinel with
    | some s => if q = s then .ok "N/A" else .ok (formatNumber q pre suf)
    | none => .ok (formatNumber q pre suf)

/-- A cell of the enriched frame as handed to `format_value` by the popup
builder: pandas stores a missing value as float `NaN`. -/
def toPyVal (x : Option ℚ) : PyVal :=
  match x with
  | none => .pnan
  | some q => .num q

/-- Measure columns untouched by the coordinate join: the Gazetteer merge
only rewrites `geoid`, `lat` and `lon`. -/
def sameMeasures (j a : AcsRow) : Prop :=
  j.built2020 = a.built2020 ∧ j.totalUnits = a.totalUnits ∧
  j.owner = a.owner ∧ j.renter = a.renter ∧
  j.bach = a.bach ∧ j.mast = a.mast ∧ j.prof = a.prof ∧ j.doct = a.doct ∧
  j.pop = a.pop

/-- A coordinate-bearing primary row whose `built_2020_plus` exceeds its
`total_housing_units` (10 recent units out of a reported 5). -/
def ratioCxRow : AcsRow :=
  { geoid := "490490001001", lat := some 40, lon := some (-111),
    built2020 := some 10, totalUnits := some 5, owner := some 1, renter := some 1,
    bach := some 0, mast := some 0, prof := some 0, doct := some 0, pop := some 5,
    u1019 := some 0, u2049 := some 0, u50 := some 0,
    homeValue := some 100, income := some 50 }

/-- A primary row with internally consistent counts, for the C1 witness. -/
def ratioOkRow : AcsRow :=
  { geoid := "490490001001", lat := some 40, lon := some (-111),
    built2020 := some 1, totalUnits := some 10, owner := some 1, renter := some 3,
    bach := some 1, mast := some 1, prof := some 0, doct := some 0, pop := some 4,
    u1019 := some 0, u2049 := some 0, u50 := some 0,
    homeValue := some 100, income := some 50 }

/-- A coordinate-less primary row for the C3 scenario. -/
def c3Row (g : String) : AcsRow :=
  { geoid := g, lat := none, lon := none,
    built2020 := some 1, totalUnits := some 10, owner := some 1, renter := some 1,
    bach := some 0, mast := some 0, prof := some 0, doct := some 0, pop := some 5,
    u1019 := some 0, u2049 := some 0, u50 := some 0,
    homeValue := some 100, income := some 50 }

/-- A centroid table matching only the first two C3 scenario rows. -/
def c3Gaz : List GazRow :=
  [ ⟨"490490001001", some 40, some (-111)⟩,
    ⟨"490490001002", some 41, some (-112)⟩ ]

/-- First benchmark scenario row: 100 units, 10 built since 2020. -/
def benchRow1 : AcsRow :=
  { geoid := "490490001001", lat := some 40, lon := some (-111),
    built2020 := some 10, totalUnits := some 100, owner := some 1, renter := some 1,
    bach := some 0, mast := some 0, prof := some 0, doct := some 0, pop := some 5,
    u1019 := some 0, u2049 := some 0, u50 := some 0,
    homeValue := some 100, income := some 50 }

/-- Second benchmark scenario row: 300 units, 90 built since 2020. -/
def benchRow2 : AcsRow :=
  { geoid := "490490001002", lat := some 41, lon := some (-112),
    built2020 := some 90, totalUnits := some 300, owner := some 1, renter := some 1,
    bach := some 0, mast := some 0, prof := some 0, doct := some 0, pop := some 5,
    u1019 := some 0, u2049 := some 0, u50 := some 0,
    homeValue := some 100, income := some 50 }

/-- A raw primary-table row whose county component has four digits, so the
assembled GEOID has 13 characters instead of 12. -/
def badGeoidRaw : CrimeRawRow :=
  { statefp := "49", countyfp := "1234", tractce := "000100", blkgrpce := "1",
    lat := some 40, lon := some (-111), built2020 := some 1, totalUnits := some 10,
    owner := some 1, renter := some 1, bach := some 0, gradDeg := some 0,
    pop := some 5, u1019 := some 0, u2049 := some 0, u50 := some 0,
    homeValue := some 100, income := some 50 }

/-- A tier configuration leaving the gap `[1/2, 7/10)` uncovered. -/
def gapTiers : List Tier :=
  [ ⟨"Low", 0, 1/2, "#AAAAAA"⟩,
    ⟨"High", 7/10, 1, "#BBBBBB"⟩ ]

/-- A coordinate-bearing row whose new-construction ratio `6/10` falls in
the gap of `gapTiers`. -/
def gapRow : AcsRow :=
  { geoid := "490490001001", lat := some 40, lon := some (-111),
    built2020 := some 6, totalUnits := some 10, owner := some 1, renter := some 1,
    bach := some 0, mast := some 0, prof := some 0, doct := some 0, pop := some 5,
    u1019 := some 0, u2049 := some 0, u50 := some 0,
    homeValue := some 100, income := some 50 }

/-- A raw primary-table row whose household income and home value carry the
upstream suppression sentinel `-666666666`. -/
def c7Raw : CrimeRawRow :=
  { statefp := "49", countyfp := "049", tractce := "000100", blkgrpce := "1",
    lat := some 40, lon := some (-111), built2020 := some 1, totalUnits := some 10,
    owner := some 1, renter := some 1, bach := some 0, gradDeg := some 0,
    pop := some 5, u1019 := some 0, u2049 := some 0, u50 := some 0,
    homeValue := some (-666666666), income := some (-666666666) }

/-- The per-row effect of the optional mobility join under unique tract
keys: absent table leaves the row unchanged, present table sets the score
to the tract lookup. -/
def mobSet (oa : Option (List OaRow)) (r : EnrichedRow) : EnrichedRow :=
  match oa with
  | none => r
  | some l => { r with mobility_score := oaScoreLookup l (r.geoid.take 11) }

/-- A one-tract Opportunity Atlas table for the C8/C9 witnesses. -/
def sibOa : List OaRow := [⟨"49049000100", some (1/2)⟩]

/-- First sibling block group (tract `49049000100`, block group 1). -/
def sibRow1 : AcsRow :=
  { geoid := "490490001001", lat := some 40, lon := some (-111),
    built2020 := some 1, totalUnits := some 10, owner := some 1, renter := some 1,
    bach := some 0, mast := some 0, prof := some 0, doct := some 0, pop := some 5,
    u1019 := some 0, u2049 := some 0, u50 := some 0,
    homeValue := some 100, income := some 50 }

/-- Second sibling block group (same tract, block group 2). -/
def sibRow2 : AcsRow :=
  { geoid := "490490001002", lat := some 41, lon := some (-112),
    built2020 := some 1, totalUnits := some 10, owner := some 1, renter := some 1,
    bach := some 0, mast := some 0, prof := some 0, doct := some 0, pop := some 5,
    u1019 := some 0, u2049 := some 0, u50 := some 0,
    homeValue := some 100, income := some 50 }

theorem sameMeasures_refl (a : AcsRow) : sameMeasures a a :=
  ⟨rfl, rfl, rfl, rfl, rfl, rfl, rfl, rfl, rfl⟩

theorem mem_coordJoin {acs : List AcsRow} {gaz : List GazRow} {j : AcsRow}
    (h : j ∈ coordJoin acs gaz) : ∃ a ∈ acs, sameMeasures j a := by
  simp only [coordJoin, List.mem_flatMap, List.mem_map] at h
  obtain ⟨a', ⟨a, ha, rfl⟩, g, hg, rfl⟩ := h
  exact ⟨a, ha, sameMeasures_refl a⟩

theorem mem_step1 {hasLat : Bool} {acs : List AcsRow} {gaz : Option (List GazRow)}
    {j : AcsRow} (h : j ∈ step1 hasLat acs gaz) : ∃ a ∈ acs, sameMeasures j a := by
  cases gaz with
  | none => exact ⟨j, h, sameMeasures_refl j⟩
  | some g =>
    cases hasLat with
    | false => exact mem_coordJoin h
    | true => exact ⟨j, h, sameMeasures_refl j⟩

theorem step1_true (acs : List AcsRow) (gaz : Option (List GazRow)) :
    step1 true acs gaz = acs := by
  cases gaz <;> rfl

theorem mem_oaMergeRow {oa : List OaRow} {r r' : EnrichedRow}
    (h : r' ∈ oaMergeRow oa r) : ∃ m, r' = { r with mobility_score := m } := by
  unfold oaMergeRow at h
  split at h
  · simp only [List.mem_singleton] at h
    exact ⟨none, h⟩
  · simp only [List.mem_map] at h
    obtain ⟨o, _, rfl⟩ := h
    exact ⟨o.score, rfl⟩

theorem mem_step6 {oa : Option (List OaRow)} {l : List EnrichedRow}
    {r' : EnrichedRow} (h : r' ∈ step6 oa l) :
    ∃ r ∈ l, ∃ m, r' = { r with mobility_score := m } := by
  cases oa with
  | none => exact ⟨r', h, r'.mobility_score, rfl⟩
  | some o =>
    simp only [step6, List.mem_flatMap] at h
    obtain ⟨r, hr, hmem⟩ := h
    obtain ⟨m, rfl⟩ := mem_oaMergeRow hmem
    exact ⟨r, hr, m, rfl⟩

/-- Field provenance through the whole pipeline: every output record comes
from a primary-table row, its measure columns are the `fillna(0)` images of
that row's cells, its three ratio columns satisfy the zero-guarded division
relations over its own measure columns, its tier pair is the classifier
applied to its own `pct_new_housing`, and the broadcast benchmark equals
the run's scalar benchmark. -/
theorem buildProvenance {hasLat : Bool} {acs : List AcsRow}
    {gaz : Option (List GazRow)} {lookup : List (String × String)}
    {oa : Option (List OaRow)} {tiers : List Tier} {r : EnrichedRow}
    (h : r ∈ (build_enriched_dataset hasLat acs gaz lookup oa tiers).rows) :
    ∃ a ∈ acs,
      r.built2020 = coalesce0 a.built2020 ∧
      r.totalUnits = coalesce0 a.totalUnits ∧
      r.owner = coalesce0 a.owner ∧
      r.renter = coalesce0 a.renter ∧
      r.bach = coalesce0 a.bach ∧
      r.mast = coalesce0 a.mast ∧
      r.prof = coalesce0 a.prof ∧
      r.doct = coalesce0 a.doct ∧
      r.pop = coalesce0 a.pop ∧
      r.pct_new_housing =
        (if 0 < r.totalUnits then r.built2020 / r.totalUnits else 0) ∧
      r.pct_renter =
        (if 0 < r.owner + r.renter then r.renter / (r.owner + r.renter) else 0) ∧
      r.pct_college =
        (if 0 < r.pop then (r.bach + r.mast + r.prof + r.doct) / r.pop else 0) ∧
      (r.tier_label, r.tier_color) =
        classify_growth_tier (some r.pct_new_housing) tiers ∧
      r.state_avg_pct_new = stateAvgOf (step1 hasLat acs gaz) := by
  simp only [build_enriched_dataset, List.mem_filter, List.mem_map] at h
  obtain ⟨⟨r1, hr1, rfl⟩, _⟩ := h
  obtain ⟨r2, hr2, m, rfl⟩ := mem_step6 hr1
  simp only [List.mem_map] at hr2
  obtain ⟨j, hj, rfl⟩ := hr2
  obtain ⟨a, ha, hm⟩ := mem_step1 hj
  obtain ⟨h1, h2, h3, h4, h5, h6, h7, h8, h9⟩ := hm
  refine ⟨a, ha, ?_⟩
  simp only [step7, enrichRow, h1, h2, h3, h4, h5, h6, h7, h8, h9]
  simp

/-- Every row surviving the final gate has both coordinates present. -/
theorem mem_rows_hasCoords {hasLat : Bool} {acs : List AcsRow}
    {gaz : Option (List GazRow)} {lookup : List (String × String)}
    {oa : Option (List OaRow)} {tiers : List Tier} {r : EnrichedRow}
    (h : r ∈ (build_enriched_dataset hasLat acs gaz lookup oa tiers).rows) :
    r.lat.isSome ∧ r.lon.isSome := by
  simp only [build_enriched_dataset, List.mem_filter, hasCoords,
    Bool.and_eq_true] at h
  exact ⟨h.2.1, h.2.2⟩

/-- When the Atlas table has at most one row per tract key, the left join
sends each working row to exactly one output row whose score is the key's
lookup result. -/
theorem oaMergeRow_of_unique (oa : List OaRow) (r : EnrichedRow)
    (h : (oa.filter (fun o => zfill 11 o.tract == r.geoid.take 11)).length ≤ 1) :
    oaMergeRow oa r =
      [{ r with mobility_score := oaScoreLookup oa (r.geoid.take 11) }] := by
  cases hf : oa.filter (fun o => zfill 11 o.tract == r.geoid.take 11) with
  | nil =>
    unfold oaMergeRow oaScoreLookup
    rw [hf]
  | cons o rest =>
    have hrest : rest = [] := by
      rw [hf] at h
      simp only [List.length_cons] at h
      exact List.eq_nil_of_length_eq_zero (by omega)
    subst hrest
    unfold oaMergeRow oaScoreLookup
    rw [hf]
    simp

/-- Under the unique-tract-key hypothesis the whole mobility join is a map:
it keeps the row order, changes only `mobility_score`, and in particular
leaves the row count unchanged. -/
theorem step6_of_unique (oa : List OaRow) (l : List EnrichedRow)
    (h : ∀ k, (oa.filter (fun o => zfill 11 o.tract == k)).length ≤ 1) :
    step6 (some oa) l =
      l.map (fun r => { r with
        mobility_score := oaScoreLookup oa (r.geoid.take 11) }) := by
  induction l with
  | nil => rfl
  | cons r rest ih =>
    simp only [step6, List.flatMap_cons, List.map_cons] at *
    rw [oaMergeRow_of_unique oa r (h _), ih]
    rfl

/-- A tract key matching no Atlas row looks up to a missing score. -/
theorem oaScoreLookup_eq_none (oa : List OaRow) (k : String)
    (h : ∀ o ∈ oa, ¬ (zfill 11 o.tract = k)) : oaScoreLookup oa k = none := by
  unfold oaScoreLookup
  have hf : oa.filter (fun o => zfill 11 o.tract == k) = [] := by
    simp only [List.filter_eq_nil_iff, beq_iff_eq]
    exact h
  rw [hf]

/-- Under the unique-tract-key hypothesis, every output record's mobility
score is the lookup of its own 11-character tract prefix. -/
theorem mobility_of_mem_rows {hasLat : Bool} {acs : List AcsRow}
    {gaz : Option (List GazRow)} {lookup : List (String × String)}
    {oa : List OaRow} {tiers : List Tier} {r : EnrichedRow}
    (hu : ∀ k, (oa.filter (fun o => zfill 11 o.tract == k)).length ≤ 1)
    (h : r ∈ (build_enriched_dataset hasLat acs gaz lookup (some oa) tiers).rows) :
    r.mobility_score = oaScoreLookup oa (r.geoid.take 11) := by
  simp only [build_enriched_dataset, List.mem_filter, List.mem_map] at h
  obtain ⟨⟨r1, hr1, rfl⟩, _⟩ := h
  rw [step6_of_unique oa _ hu] at hr1
  simp only [List.mem_map] at hr1
  obtain ⟨r2, hr2, rfl⟩ := hr1
  simp [step7]

/-- Piecewise evaluation of the classifier on the configured `GROWTH_TIERS`
for non-negative ratios. -/
theorem classify_eval (q : ℚ) (h0 : 0 ≤ q) :
    classify_growth_tier (some q) GROWTH_TIERS =
      if q < 1/100 then ("Minimal new construction", "#D9D9D9")
      else if q < 3/100 then ("Some new construction", "#A6BDDB")
      else if q < 7/100 then ("Moderate growth", "#3690C0")
      else if q < 15/100 then ("High growth", "#0570B0")
      else if q ≤ 1 then ("Construction hotspot", "#034E7B")
      else noDataTier := by
  rcases lt_or_le q (1/100) with h1 | h1
  · rw [if_pos h1]
    norm_num [classify_growth_tier, GROWTH_TIERS, classifyLoop, not_lt.mpr h0, h0, h1]
  · rw [if_neg (not_lt.mpr h1)]
    rcases lt_or_le q (3/100) with h2 | h2
    · rw [if_pos h2]
      norm_num [classify_growth_tier, GROWTH_TIERS, classifyLoop, not_lt.mpr h0,
        not_lt.mpr h1, h1, h2]
    · rw [if_neg (not_lt.mpr h2)]
      rcases lt_or_le q (7/100) with h3 | h3
      · rw [if_pos h3]
        norm_num [classify_growth_tier, GROWTH_TIERS, classifyLoop, not_lt.mpr h0,
          not_lt.mpr h1, not_lt.mpr h2, h2, h3]
      · rw [if_neg (not_lt.mpr h3)]
        rcases lt_or_le q (15/100) with h4 | h4
        · rw [if_pos h4]
          norm_num [classify_growth_tier, GROWTH_TIERS, classifyLoop, not_lt.mpr h0,
            not_lt.mpr h1, not_lt.mpr h2, not_lt.mpr h3, h3, h4]
          intros
          split_ifs <;> simp_all <;> linarith
        · rw [if_neg (not_lt.mpr h4)]
          rcases le_or_lt q 1 with h5 | h5
          · rw [if_pos h5]
            norm_num [classify_growth_tier, GROWTH_TIERS, classifyLoop, not_lt.mpr h0,
              not_lt.mpr h1, not_lt.mpr h2, not_lt.mpr h3, h4, h5]
            split_ifs <;> simp_all <;> linarith
          · rw [if_neg (not_le.mpr h5)]
            norm_num [classify_growth_tier, GROWTH_TIERS, classifyLoop, not_lt.mpr h0,
              not_lt.mpr h1, not_lt.mpr h2, not_lt.mpr h3, not_le.mpr h5, h4]
            intros
            simp_all
            linarith

/-- C2: `classify_growth_tier` is total: a null (`NaN`) or negative ratio
returns the reserved "No data" pair; every ratio in `[0, 1]` classifies into
one of the configured tiers (never "No data"); a ratio of exactly `1.0`
falls in the top tier because the last tier's upper bound is closed; and a
non-negative ratio matching no configured tier (on the configured
`GROWTH_TIERS`, any ratio above `1`) falls back to "No data" instead of
raising. -/
theorem classify_growth_tier_total :
    (∀ tiers, classify_growth_tier none tiers = noDataTier) ∧
    (∀ tiers, ∀ q : ℚ, q < 0 → classify_growth_tier (some q) tiers = noDataTier) ∧
    (∀ q : ℚ, 0 ≤ q → q ≤ 1 →
      classify_growth_tier (some q) GROWTH_TIERS ∈
        GROWTH_TIERS.map (fun t => (t.label, t.color))) ∧
    classify_growth_tier (some 1) GROWTH_TIERS =
      ("Construction hotspot", "#034E7B") ∧
    (∀ q : ℚ, 1 < q → classify_growth_tier (some q) GROWTH_TIERS = noDataTier) := by
  refine ⟨fun tiers => rfl, fun tiers q h => by simp [classify_growth_tier, h],
    ?_, ?_, ?_⟩
  · intro q h0 h1
    rw [classify_eval q h0]
    split_ifs <;> first | simp [GROWTH_TIERS] | (exfalso; linarith)
  · rw [classify_eval 1 (by norm_num)]
    norm_num
  · intro q h
    rw [classify_eval q (by linarith)]
    split_ifs <;> first | rfl | (exfalso; linarith)

/-- Witness for C2 at concrete ratios. -/
theorem classify_growth_tier_total_witness :
    classify_growth_tier none [] = noDataTier ∧
    classify_growth_tier (some (-1)) GROWTH_TIERS = noDataTier ∧
    classify_growth_tier (some (1/2)) GROWTH_TIERS ∈
      GROWTH_TIERS.map (fun t => (t.label, t.color)) ∧
    classify_growth_tier (some 2) GROWTH_TIERS = noDataTier :=
  ⟨classify_growth_tier_total.1 [],
   classify_growth_tier_total.2.1 GROWTH_TIERS (-1) (by norm_num),
   classify_growth_tier_total.2.2.1 (1/2) (by norm_num) (by norm_num),
   classify_growth_tier_total.2.2.2.2 2 (by norm_num)⟩

/-- C1 counterexample: on a record whose recent-construction count exceeds
its unit total the enriched output carries `pct_new_housing = 2`, outside
`[0, 1]` — the code never clamps the ratio to the claimed interval. -/
theorem derived_ratio_above_one :
    ((build_enriched_dataset true [ratioCxRow] none [] none GROWTH_TIERS).rows.map
      (fun r => r.pct_new_housing)) = [2] ∧ ¬ ((2 : ℚ) ≤ 1) := by
  constructor
  · norm_num [build_enriched_dataset, step1, ratioCxRow, enrichRow, step6, step7,
      hasCoords, stateAvgOf, coalesce0]
  · norm_num

/-- C1 (amended): the derived ratios equal exactly `0` when their
denominator is zero (or absent, since missing cells are filled with zero),
and they lie in `[0, 1]` for every record, provided each primary row's
counts are internally consistent: non-negative, recent-construction count
at most the unit total, and degree counts summing to at most the
population. -/
theorem derived_ratio_bounds (hasLat : Bool) (acs : List AcsRow)
    (gaz : Option (List GazRow)) (lookup : List (String × String))
    (oa : Option (List OaRow)) (tiers : List Tier)
    (hacs : ∀ a ∈ acs,
      0 ≤ coalesce0 a.built2020 ∧
      coalesce0 a.built2020 ≤ coalesce0 a.totalUnits ∧
      0 ≤ coalesce0 a.owner ∧ 0 ≤ coalesce0 a.renter ∧
      0 ≤ coalesce0 a.bach ∧ 0 ≤ coalesce0 a.mast ∧
      0 ≤ coalesce0 a.prof ∧ 0 ≤ coalesce0 a.doct ∧
      coalesce0 a.bach + coalesce0 a.mast + coalesce0 a.prof + coalesce0 a.doct
        ≤ coalesce0 a.pop) :
    ∀ r ∈ (build_enriched_dataset hasLat acs gaz lookup oa tiers).rows,
      (0 ≤ r.pct_new_housing ∧ r.pct_new_housing ≤ 1) ∧
      (0 ≤ r.pct_renter ∧ r.pct_renter ≤ 1) ∧
      (0 ≤ r.pct_college ∧ r.pct_college ≤ 1) ∧
      (r.totalUnits = 0 → r.pct_new_housing = 0) ∧
      (r.owner + r.renter = 0 → r.pct_renter = 0) ∧
      (r.pop = 0 → r.pct_college = 0) := by
  intro r hr
  obtain ⟨a, ha, hb, ht, how, hrn, hba, hma, hprf, hdo, hpo, hpn, hprn, hpc, _, _⟩ :=
    buildProvenance hr
  obtain ⟨g1, g2, g3, g4, g5, g6, g7, g8, g9⟩ := hacs a ha
  have hb0 : 0 ≤ r.built2020 := by rw [hb]; exact g1
  have hbt : r.built2020 ≤ r.totalUnits := by rw [hb, ht]; exact g2
  have how0 : 0 ≤ r.owner := by rw [how]; exact g3
  have hrn0 : 0 ≤ r.renter := by rw [hrn]; exact g4
  have hcoll0 : 0 ≤ r.bach + r.mast + r.prof + r.doct := by
    rw [hba, hma, hprf, hdo]
    have := add_le_add (add_le_add (add_le_add (le_refl (0:ℚ)) g5) g6) g7
    linarith
  have hcollp : r.bach + r.mast + r.prof + r.doct ≤ r.pop := by
    rw [hba, hma, hprf, hdo, hpo]; exact g9
  refine ⟨?_, ?_, ?_, ?_, ?_, ?_⟩
  · rw [hpn]
    split_ifs with h
    · exact ⟨div_nonneg hb0 (le_of_lt h), (div_le_one h).mpr hbt⟩
    · norm_num
  · rw [hprn]
    split_ifs with h
    · refine ⟨div_nonneg hrn0 (le_of_lt h), (div_le_one h).mpr ?_⟩
      linarith
    · norm_num
  · rw [hpc]
    split_ifs with h
    · exact ⟨div_nonneg hcoll0 (le_of_lt h), (div_le_one h).mpr hcollp⟩
    · norm_num
  · intro h0
    rw [hpn, h0]
    norm_num
  · intro h0
    rw [hprn, h0]
    norm_num
  · intro h0
    rw [hpc, h0]
    norm_num

/-- Witness for C1 (amended) on a one-row consistent dataset. -/
theorem derived_ratio_bounds_witness :
    (∀ a ∈ [ratioOkRow],
      0 ≤ coalesce0 a.built2020 ∧
      coalesce0 a.built2020 ≤ coalesce0 a.totalUnits ∧
      0 ≤ coalesce0 a.owner ∧ 0 ≤ coalesce0 a.renter ∧
      0 ≤ coalesce0 a.bach ∧ 0 ≤ coalesce0 a.mast ∧
      0 ≤ coalesce0 a.prof ∧ 0 ≤ coalesce0 a.doct ∧
      coalesce0 a.bach + coalesce0 a.mast + coalesce0 a.prof + coalesce0 a.doct
        ≤ coalesce0 a.pop) ∧
    (∀ r ∈ (build_enriched_dataset true [ratioOkRow] none [] none
        GROWTH_TIERS).rows,
      (0 ≤ r.pct_new_housing ∧ r.pct_new_housing ≤ 1) ∧
      (0 ≤ r.pct_renter ∧ r.pct_renter ≤ 1) ∧
      (0 ≤ r.pct_college ∧ r.pct_college ≤ 1) ∧
      (r.totalUnits = 0 → r.pct_new_housing = 0) ∧
      (r.owner + r.renter = 0 → r.pct_renter = 0) ∧
      (r.pop = 0 → r.pct_college = 0)) := by
  have hh : ∀ a ∈ [ratioOkRow],
      0 ≤ coalesce0 a.built2020 ∧
      coalesce0 a.built2020 ≤ coalesce0 a.totalUnits ∧
      0 ≤ coalesce0 a.owner ∧ 0 ≤ coalesce0 a.renter ∧
      0 ≤ coalesce0 a.bach ∧ 0 ≤ coalesce0 a.mast ∧
      0 ≤ coalesce0 a.prof ∧ 0 ≤ coalesce0 a.doct ∧
      coalesce0 a.bach + coalesce0 a.mast + coalesce0 a.prof + coalesce0 a.doct
        ≤ coalesce0 a.pop := by
    intro a ha
    rw [List.mem_singleton] at ha
    subst ha
    norm_num [ratioOkRow, coalesce0]
  exact ⟨hh, derived_ratio_bounds true [ratioOkRow] none [] none GROWTH_TIERS hh⟩

/-- C3: every record of the enriched output has both coordinates present
(the inner centroid join drops unmatched rows and the final gate drops any
record still missing a coordinate); and on 3 primary rows with a centroid
table matching only 2, the output has exactly 2 rows and the logged
Gazetteer warning records 1 dropped row. -/
theorem coordinate_complete_output :
    (∀ (hasLat : Bool) (acs : List AcsRow) (gaz : Option (List GazRow))
        (lookup : List (String × String)) (oa : Option (List OaRow))
        (tiers : List Tier),
      ∀ r ∈ (build_enriched_dataset hasLat acs gaz lookup oa tiers).rows,
        r.lat.isSome ∧ r.lon.isSome) ∧
    (build_enriched_dataset false
        [c3Row "490490001001", c3Row "490490001002", c3Row "490490001003"]
        (some c3Gaz) [("49049", "Utah")] none GROWTH_TIERS).rows.length = 2 ∧
    (build_enriched_dataset false
        [c3Row "490490001001", c3Row "490490001002", c3Row "490490001003"]
        (some c3Gaz) [("49049", "Utah")] none GROWTH_TIERS).gazDropped = some 1 := by
  have h1 : zfill 12 "490490001001" = "490490001001" := by decide
  have h2 : zfill 12 "490490001002" = "490490001002" := by decide
  have h3 : zfill 12 "490490001003" = "490490001003" := by decide
  refine ⟨fun hasLat acs gaz lookup oa tiers r hr => mem_rows_hasCoords hr, ?_, ?_⟩
  · simp [build_enriched_dataset, step1, coordJoin, c3Row, c3Gaz, h1, h2, h3,
      enrichRow, step6, step7, hasCoords, stateAvgOf]
  · simp [build_enriched_dataset, step1, coordJoin, c3Row, c3Gaz, h1, h2, h3,
      enrichRow, step6, step7, hasCoords, stateAvgOf]

/-- Witness for C3's universally quantified part on a concrete run. -/
theorem coordinate_complete_output_witness :
    ((build_enriched_dataset false [c3Row "490490001001"] (some c3Gaz)
        [("49049", "Utah")] none GROWTH_TIERS).rows.all hasCoords) = true := by
  rw [List.all_eq_true]
  intro r hr
  have h := coordinate_complete_output.1 false [c3Row "490490001001"] (some c3Gaz)
    [("49049", "Utah")] none GROWTH_TIERS r hr
  simp [hasCoords, h.1, h.2]

/-- C4: the returned state benchmark is the ratio of the summed
`built_2020_plus` to the summed `total_housing_units` over the working rows
(after the coordinate join), with `0` when the unit total is not positive;
it is broadcast into every output record's `state_avg_pct_new`; and on the
two-record dataset with unit counts (100, 300) and recent-built counts
(10, 90) it equals `100/400 = 1/4`. -/
theorem state_benchmark_weighted_avg :
    (∀ (hasLat : Bool) (acs : List AcsRow) (gaz : Option (List GazRow))
        (lookup : List (String × String)) (oa : Option (List OaRow))
        (tiers : List Tier),
      (build_enriched_dataset hasLat acs gaz lookup oa tiers).state_avg_pct_new =
        (if 0 < ((step1 hasLat acs gaz).map (fun a => coalesce0 a.totalUnits)).sum
         then ((step1 hasLat acs gaz).map (fun a => coalesce0 a.built2020)).sum /
              ((step1 hasLat acs gaz).map (fun a => coalesce0 a.totalUnits)).sum
         else 0)) ∧
    (∀ (hasLat : Bool) (acs : List AcsRow) (gaz : Option (List GazRow))
        (lookup : List (String × String)) (oa : Option (List OaRow))
        (tiers : List Tier),
      ∀ r ∈ (build_enriched_dataset hasLat acs gaz lookup oa tiers).rows,
        r.state_avg_pct_new =
          (build_enriched_dataset hasLat acs gaz lookup oa tiers).state_avg_pct_new) ∧
    (build_enriched_dataset true [benchRow1, benchRow2] none [] none
        GROWTH_TIERS).state_avg_pct_new = 1/4 := by
  refine ⟨fun hasLat acs gaz lookup oa tiers => rfl, ?_, ?_⟩
  · intro hasLat acs gaz lookup oa tiers r hr
    obtain ⟨a, ha, _, _, _, _, _, _, _, _, _, _, _, _, _, havg⟩ :=
      buildProvenance hr
    exact havg
  · norm_num [build_enriched_dataset, step1, benchRow1, benchRow2, stateAvgOf,
      coalesce0]

/-- Witness for C4's broadcast part on the concrete two-record dataset. -/
theorem state_benchmark_weighted_avg_witness :
    ((build_enriched_dataset true [benchRow1, benchRow2] none [] none
        GROWTH_TIERS).rows.all
      (fun r => decide (r.state_avg_pct_new =
        (build_enriched_dataset true [benchRow1, benchRow2] none [] none
          GROWTH_TIERS).state_avg_pct_new))) = true := by
  rw [List.all_eq_true]
  intro r hr
  have h := state_benchmark_weighted_avg.2.1 true [benchRow1, benchRow2] none []
    none GROWTH_TIERS r hr
  simp [h]

/-- C5 counterexample: loading a primary table containing a malformed
GeographicID does not abort — the malformed 13-character row is kept in the
output and only a warning counting it is recorded. -/
theorem malformed_geoid_not_fatal :
    (load_crime_table [badGeoidRaw]).rows.length = 1 ∧
    ((load_crime_table [badGeoidRaw]).rows.map (fun a => a.geoid)) =
      ["4912340001001"] ∧
    ("4912340001001".length = 12 → False) ∧
    (load_crime_table [badGeoidRaw]).badGeoidWarning = some 1 := by
  have hg : buildGeoid badGeoidRaw = "4912340001001" := by decide
  have hl : ("4912340001001".length = 12) = False := by decide
  refine ⟨by simp [load_crime_table], ?_, by decide, ?_⟩
  · simp [load_crime_table, crimeToAcs, hg]
  · simp [load_crime_table, hg, hl]

/-- C5 (amended): a malformed GeographicID in the primary table is not
fatal: `load_crime_table` returns one output row per input row regardless,
and when some assembled GEOID is not 12 characters long it records the
non-fatal warning with the offending count instead of aborting. -/
theorem load_crime_table_keeps_malformed (raw : List CrimeRawRow) :
    (load_crime_table raw).rows.length = raw.length ∧
    ((∃ r ∈ raw, (buildGeoid r).length ≠ 12) →
      (load_crime_table raw).badGeoidWarning ≠ none) := by
  constructor
  · simp [load_crime_table]
  · rintro ⟨r, hr, hlen⟩
    simp only [load_crime_table]
    have hmem : r ∈ raw.filter (fun x => (buildGeoid x).length != 12) := by
      simp only [List.mem_filter, bne_iff_ne, ne_eq]
      exact ⟨hr, hlen⟩
    have hpos : 0 < (raw.filter (fun x => (buildGeoid x).length != 12)).length :=
      List.length_pos.mpr (List.ne_nil_of_mem hmem)
    rw [if_pos hpos]
    simp

/-- Witness for C5 (amended) on the malformed one-row table. -/
theorem load_crime_table_keeps_malformed_witness :
    (load_crime_table [badGeoidRaw]).rows.length = [badGeoidRaw].length ∧
    (load_crime_table [badGeoidRaw]).badGeoidWarning ≠ none :=
  ⟨(load_crime_table_keeps_malformed [badGeoidRaw]).1,
   (load_crime_table_keeps_malformed [badGeoidRaw]).2
     ⟨badGeoidRaw, by simp, by decide⟩⟩

/-- C6 counterexample: with a non-exhaustive tier configuration the run
does not abort — `build_enriched_dataset` completes, returns the record,
and classifies the in-gap ratio to the reserved "No data" pair.  No startup
validation of tier exhaustiveness exists in the code. -/
theorem gapped_tiers_not_fatal :
    (build_enriched_dataset true [gapRow] none [] none gapTiers).rows.length = 1 ∧
    ((build_enriched_dataset true [gapRow] none [] none gapTiers).rows.map
      (fun r => (r.tier_label, r.tier_color))) = [("No data", "#CCCCCC")] := by
  constructor
  · simp [build_enriched_dataset, step1, gapRow, enrichRow, step6, step7,
      hasCoords, stateAvgOf]
  · norm_num [build_enriched_dataset, step1, gapRow, enrichRow, step6, step7,
      hasCoords, stateAvgOf, coalesce0, classify_growth_tier, gapTiers,
      classifyLoop, noDataTier]

/-- The classifier loop falls through to "No data" when no tier's closed
range contains the ratio. -/
theorem classifyLoop_no_match (x : ℚ) (last : Tier) (l : List Tier)
    (h : ∀ t ∈ l, ¬ (t.min ≤ x ∧ x ≤ t.max)) :
    classifyLoop x last l = noDataTier := by
  induction l with
  | nil => rfl
  | cons t rest ih =>
    have ht := h t (List.mem_cons_self t rest)
    have hrest : ∀ u ∈ rest, ¬ (u.min ≤ x ∧ x ≤ u.max) :=
      fun u hu => h u (List.mem_cons_of_mem t hu)
    simp only [classifyLoop]
    by_cases hL : t = last
    · rw [if_pos hL, if_neg ht]
      exact ih hrest
    · rw [if_neg hL, if_neg (fun hc => ht ⟨hc.1, le_of_lt hc.2⟩)]
      exact ih hrest

/-- C6 (amended): no startup validation of tier exhaustiveness exists.
`build_enriched_dataset` accepts any tier configuration and completes:
every output record carries exactly the classifier's pair for its own
ratio, and a non-negative ratio contained in no configured tier's range —
e.g. one inside a configuration gap — classifies to the reserved "No data"
pair instead of raising. -/
theorem no_tier_validation :
    (∀ (hasLat : Bool) (acs : List AcsRow) (gaz : Option (List GazRow))
        (lookup : List (String × String)) (oa : Option (List OaRow))
        (tiers : List Tier),
      ∀ r ∈ (build_enriched_dataset hasLat acs gaz lookup oa tiers).rows,
        (r.tier_label, r.tier_color) =
          classify_growth_tier (some r.pct_new_housing) tiers) ∧
    (∀ (tiers : List Tier) (q : ℚ), 0 ≤ q →
      (∀ t ∈ tiers, ¬ (t.min ≤ q ∧ q ≤ t.max)) →
      classify_growth_tier (some q) tiers = noDataTier) := by
  constructor
  · intro hasLat acs gaz lookup oa tiers r hr
    obtain ⟨a, ha, _, _, _, _, _, _, _, _, _, _, _, _, htier, _⟩ :=
      buildProvenance hr
    exact htier
  · intro tiers q h0 h
    have he : classify_growth_tier (some q) tiers =
        (if q < 0 then noDataTier
         else match tiers.getLast? with
           | none => noDataTier
           | some last => classifyLoop q last tiers) := rfl
    rw [he, if_neg (not_lt.mpr h0)]
    cases tiers.getLast? with
    | none => rfl
    | some last => exact classifyLoop_no_match q last tiers h

/-- Witness for C6 (amended): the gapped run's single record carries the
classifier's own output, and the in-gap ratio `3/5` classifies "No data". -/
theorem no_tier_validation_witness :
    ((build_enriched_dataset true [gapRow] none [] none gapTiers).rows.all
      (fun r => decide ((r.tier_label, r.tier_color) =
        classify_growth_tier (some r.pct_new_housing) gapTiers))) = true ∧
    classify_growth_tier (some (3/5)) gapTiers = noDataTier := by
  constructor
  · rw [List.all_eq_true]
    intro r hr
    simp [no_tier_validation.1 true [gapRow] none [] none gapTiers r hr]
  · refine no_tier_validation.2 gapTiers (3/5) (by norm_num) ?_
    intro t ht
    simp only [gapTiers, List.mem_cons, List.mem_singleton] at ht
    rcases ht with rfl | rfl | h
    · norm_num
    · norm_num
    · exact absurd h (List.not_mem_nil t)

/-- C7: the two sentinel conventions stay distinct.  A household income
equal to the upstream suppression sentinel `-666666666` is rewritten to a
missing value by `load_crime_table` (before any derived-ratio arithmetic,
which only happens later inside `build_enriched_dataset`); the display
sentinel `-1` is then applied to that field by the enrichment's
display-formatting step; and `format_value` renders the field as "N/A",
never as a literal negative number. -/
theorem sentinel_conventions_distinct :
    ((load_crime_table [c7Raw]).rows.map (fun a => a.income)) = [none] ∧
    ((build_enriched_dataset true (load_crime_table [c7Raw]).rows none
        [("49049", "Utah")] none GROWTH_TIERS).rows.map
      (fun r => r.median_hh_income)) = [some (-1)] ∧
    ((build_enriched_dataset true (load_crime_table [c7Raw]).rows none
        [("49049", "Utah")] none GROWTH_TIERS).rows.map
      (fun r => format_value (toPyVal r.median_hh_income) "$" "" (some (-1)))) =
      [Except.ok "N/A"] := by
  have hg : zfill 12 (buildGeoid c7Raw) = "490490001001" := by decide
  refine ⟨?_, ?_, ?_⟩
  · norm_num [load_crime_table, crimeToAcs, c7Raw, repairSentinel]
  · norm_num [load_crime_table, crimeToAcs, c7Raw, repairSentinel, hg,
      build_enriched_dataset, step1, enrichRow, step6, step7, hasCoords,
      stateAvgOf]
  · norm_num [load_crime_table, crimeToAcs, c7Raw, repairSentinel, hg,
      build_enriched_dataset, step1, enrichRow, step6, step7, hasCoords,
      stateAvgOf, toPyVal, format_value]

/-- Under unique tract keys the pipeline's output rows are the image of the
working rows under the per-row enrichment map, filtered by the coordinate
gate. -/
theorem build_rows_eq (hasLat : Bool) (acs : List AcsRow)
    (gaz : Option (List GazRow)) (lookup : List (String × String))
    (oa : Option (List OaRow)) (tiers : List Tier)
    (hoa : ∀ l ∈ oa, ∀ k, ((l.filter (fun o => zfill 11 o.tract == k)).length ≤ 1)) :
    (build_enriched_dataset hasLat acs gaz lookup oa tiers).rows =
      ((step1 hasLat acs gaz).map (fun j =>
        step7 (mobSet oa (enrichRow lookup tiers
          (stateAvgOf (step1 hasLat acs gaz)) j)))).filter hasCoords := by
  cases oa with
  | none =>
    simp only [build_enriched_dataset, step6, mobSet, List.map_map]
    rfl
  | some l =>
    have hu := hoa l (by simp)
    simp only [build_enriched_dataset, step6_of_unique l _ hu, mobSet,
      List.map_map]
    rfl

/-- C8: on a primary table that already carries coordinates the centroid
join is skipped, so (under unique mobility-table keys, and with every row
coordinate-complete) the enriched output has exactly one row per primary
row, with the coordinate values unchanged, and no Gazetteer-merge warning
is recorded. -/
theorem build_true_preserves (acs : List AcsRow) (gaz : Option (List GazRow))
    (lookup : List (String × String)) (oa : Option (List OaRow))
    (tiers : List Tier)
    (hc : ∀ a ∈ acs, a.lat.isSome ∧ a.lon.isSome)
    (hoa : ∀ l ∈ oa, ∀ k, ((l.filter (fun o => zfill 11 o.tract == k)).length ≤ 1)) :
    (build_enriched_dataset true acs gaz lookup oa tiers).rows.length =
      acs.length ∧
    ((build_enriched_dataset true acs gaz lookup oa tiers).rows.map
      (fun r => r.lat)) = acs.map (fun a => a.lat) ∧
    ((build_enriched_dataset true acs gaz lookup oa tiers).rows.map
      (fun r => r.lon)) = acs.map (fun a => a.lon) ∧
    (build_enriched_dataset true acs gaz lookup oa tiers).gazDropped = none := by
  have hrows := build_rows_eq true acs gaz lookup oa tiers hoa
  rw [step1_true] at hrows
  have hlat : ∀ a : AcsRow,
      (step7 (mobSet oa (enrichRow lookup tiers (stateAvgOf acs) a))).lat =
        a.lat := by
    intro a; cases oa <;> rfl
  have hlon : ∀ a : AcsRow,
      (step7 (mobSet oa (enrichRow lookup tiers (stateAvgOf acs) a))).lon =
        a.lon := by
    intro a; cases oa <;> rfl
  have hfilter :
      ((acs.map (fun j => step7 (mobSet oa (enrichRow lookup tiers
        (stateAvgOf acs) j)))).filter hasCoords) =
      acs.map (fun j => step7 (mobSet oa (enrichRow lookup tiers
        (stateAvgOf acs) j))) := by
    rw [List.filter_eq_self]
    intro r hr
    simp only [List.mem_map] at hr
    obtain ⟨a, ha, rfl⟩ := hr
    simp [hasCoords, hlat a, hlon a, (hc a ha).1, (hc a ha).2]
  rw [hrows, hfilter]
  refine ⟨List.length_map _ _, ?_, ?_, ?_⟩
  · rw [List.map_map]
    exact List.map_congr_left (fun a _ => hlat a)
  · rw [List.map_map]
    exact List.map_congr_left (fun a _ => hlon a)
  · cases gaz <;> rfl

/-- Witness for C8 on a coordinate-complete one-row table with both
optional tables present. -/
theorem build_true_preserves_witness :
    (build_enriched_dataset true [benchRow1] (some c3Gaz) [("49049", "Utah")]
      (some sibOa) GROWTH_TIERS).rows.length = 1 ∧
    ((build_enriched_dataset true [benchRow1] (some c3Gaz) [("49049", "Utah")]
      (some sibOa) GROWTH_TIERS).rows.map (fun r => r.lat)) = [some 40] ∧
    ((build_enriched_dataset true [benchRow1] (some c3Gaz) [("49049", "Utah")]
      (some sibOa) GROWTH_TIERS).rows.map (fun r => r.lon)) = [some (-111)] ∧
    (build_enriched_dataset true [benchRow1] (some c3Gaz) [("49049", "Utah")]
      (some sibOa) GROWTH_TIERS).gazDropped = none := by
  have h := build_true_preserves [benchRow1] (some c3Gaz) [("49049", "Utah")]
    (some sibOa) GROWTH_TIERS
    (by intro a ha
        rw [List.mem_singleton] at ha
        subst ha
        simp [benchRow1])
    (by intro l hl k
        simp only [Option.mem_def, Option.some.injEq] at hl
        subst hl
        exact List.length_filter_le _ _)
  simpa [benchRow1] using h

/-- C9: under unique Atlas tract keys the mobility join is many-to-one on
the 11-character tract prefix: every output record's score is the lookup of
its own tract prefix, two records sharing a tract prefix carry identical
(possibly missing) scores, a record whose tract matches no Atlas row keeps
a missing score, and the join never changes the row count. -/
theorem mobility_join_by_tract (hasLat : Bool) (acs : List AcsRow)
    (gaz : Option (List GazRow)) (lookup : List (String × String))
    (oa : List OaRow) (tiers : List Tier)
    (hu : ∀ k, (oa.filter (fun o => zfill 11 o.tract == k)).length ≤ 1) :
    (∀ r ∈ (build_enriched_dataset hasLat acs gaz lookup (some oa) tiers).rows,
      r.mobility_score = oaScoreLookup oa (r.geoid.take 11)) ∧
    (∀ r1 ∈ (build_enriched_dataset hasLat acs gaz lookup (some oa) tiers).rows,
      ∀ r2 ∈ (build_enriched_dataset hasLat acs gaz lookup (some oa) tiers).rows,
      r1.geoid.take 11 = r2.geoid.take 11 →
        r1.mobility_score = r2.mobility_score) ∧
    (∀ r ∈ (build_enriched_dataset hasLat acs gaz lookup (some oa) tiers).rows,
      (∀ o ∈ oa, zfill 11 o.tract ≠ r.geoid.take 11) →
        r.mobility_score = none) ∧
    (∀ l : List EnrichedRow, (step6 (some oa) l).length = l.length) := by
  refine ⟨fun r hr => mobility_of_mem_rows hu hr, ?_, ?_, ?_⟩
  · intro r1 h1 r2 h2 ht
    rw [mobility_of_mem_rows hu h1, mobility_of_mem_rows hu h2, ht]
  · intro r hr hno
    rw [mobility_of_mem_rows hu hr]
    exact oaScoreLookup_eq_none oa _ hno
  · intro l
    rw [step6_of_unique oa l hu]
    exact List.length_map _ _

/-- Witness for C9 on two sibling block groups and a one-row Atlas table. -/
theorem mobility_join_by_tract_witness :
    ((build_enriched_dataset true [sibRow1, sibRow2] none [] (some sibOa)
        GROWTH_TIERS).rows.all
      (fun r => decide (r.mobility_score =
        oaScoreLookup sibOa (r.geoid.take 11)))) = true ∧
    (step6 (some sibOa) []).length = ([] : List EnrichedRow).length := by
  constructor
  · rw [List.all_eq_true]
    intro r hr
    have h := (mobility_join_by_tract true [sibRow1, sibRow2] none [] sibOa
      GROWTH_TIERS (fun k => List.length_filter_le _ _)).1 r hr
    simp [h]
  · exact (mobility_join_by_tract true [sibRow1, sibRow2] none [] sibOa
      GROWTH_TIERS (fun k => List.length_filter_le _ _)).2.2.2 []

/-- C10 counterexample: `format_value` is not total.  On an infinite
float the `None`/`NaN` guard passes and `float()` succeeds, so the `"$"`
branch (and the default branch) reach `int(num)`, which raises
`OverflowError` — an exception the `except (ValueError, TypeError)` clause
does not catch.  The call raises instead of returning a string. -/
theorem format_value_raises_on_infinite :
    format_value (.pinf false) "$" "" (some (-1)) = .error "OverflowError" ∧
    format_value (.pinf false) "" "" (some (-1)) = .error "OverflowError" :=
  ⟨rfl, rfl⟩

/-- C10 (amended): `format_value` returns a string without raising for
every input except an infinite float reaching an `int()` conversion: with
the `"$"` prefix, or with neither that prefix nor the `"%"` suffix, an
infinite value raises an uncaught `OverflowError` (the `except` clause
catches only `ValueError`/`TypeError`), while with the `"%"` suffix it
formats as `inf%`/`-inf%`.  On every non-infinite input the function is
total: it returns "N/A" when the value is `None`, is a float `NaN`, equals
the `na_sentinel` argument (default `-1`), or cannot be converted to a
number (a non-float converting to `NaN` also renders "N/A" on the `int()`
branches, via the caught `ValueError`, and `nan%` on the `"%"` branch),
and otherwise returns the formatted number with the given
prefix/suffix. -/
theorem format_value_behavior :
    (∀ (pre suf : String) (n : Option ℚ),
      format_value .pnone pre suf n = .ok "N/A") ∧
    (∀ (pre suf : String) (n : Option ℚ),
      format_value .pnan pre suf n = .ok "N/A") ∧
    (∀ (pre suf : String) (n : Option ℚ),
      format_value .nonNumeric pre suf n = .ok "N/A") ∧
    (∀ (q : ℚ) (pre suf : String),
      format_value (.num q) pre suf (some q) = .ok "N/A") ∧
    (∀ (q s : ℚ) (pre suf : String), q ≠ s →
      format_value (.num q) pre suf (some s) = .ok (formatNumber q pre suf)) ∧
    (∀ (q : ℚ) (pre suf : String),
      format_value (.num q) pre suf none = .ok (formatNumber q pre suf)) ∧
    (∀ (b : Bool) (suf : String) (n : Option ℚ),
      format_value (.pinf b) "$" suf n = .error "OverflowError") ∧
    (∀ (b : Bool) (pre : String) (n : Option ℚ), pre ≠ "$" →
      format_value (.pinf b) pre "%" n =
        .ok ((if b then "-inf" else "inf") ++ "%")) ∧
    (∀ (b : Bool) (pre suf : String) (n : Option ℚ), pre ≠ "$" → suf ≠ "%" →
      format_value (.pinf b) pre suf n = .error "OverflowError") ∧
    (∀ (suf : String) (n : Option ℚ),
      format_value .nanConv "$" suf n = .ok "N/A") ∧
    (∀ (pre : String) (n : Option ℚ), pre ≠ "$" →
      format_value .nanConv pre "%" n = .ok "nan%") ∧
    (∀ (pre suf : String) (n : Option ℚ), pre ≠ "$" → suf ≠ "%" →
      format_value .nanConv pre suf n = .ok "N/A") ∧
    (∀ (v : PyVal) (pre suf : String) (n : Option ℚ), (∀ b, v ≠ .pinf b) →
      ∃ s : String, format_value v pre suf n = .ok s) := by
  refine ⟨fun _ _ _ => rfl, fun _ _ _ => rfl, fun _ _ _ => rfl, ?_, ?_,
    fun _ _ _ => rfl, ?_, ?_, ?_, ?_, ?_, ?_, ?_⟩
  · intro q pre suf
    simp [format_value]
  · intro q s pre suf h
    simp [format_value, h]
  · intro b suf n
    simp [format_value]
  · intro b pre n h
    simp [format_value, h]
  · intro b pre suf n h1 h2
    simp [format_value, h1, h2]
  · intro suf n
    simp [format_value]
  · intro pre n h
    simp [format_value, h]
  · intro pre suf n h1 h2
    simp [format_value, h1, h2]
  · intro v pre suf n hv
    cases v with
    | pnone => exact ⟨"N/A", rfl⟩
    | pnan => exact ⟨"N/A", rfl⟩
    | nonNumeric => exact ⟨"N/A", rfl⟩
    | pinf b => exact absurd rfl (hv b)
    | nanConv =>
      by_cases h1 : pre = "$"
      · exact ⟨"N/A", by simp [format_value, h1]⟩
      · by_cases h2 : suf = "%"
        · exact ⟨"nan%", by simp [format_value, h1, h2]⟩
        · exact ⟨"N/A", by simp [format_value, h1, h2]⟩
    | num q =>
      cases n with
      | none => exact ⟨formatNumber q pre suf, rfl⟩
      | some s =>
        by_cases h : q = s
        · exact ⟨"N/A", by simp [format_value, h]⟩
        · exact ⟨formatNumber q pre suf, by simp [format_value, h]⟩

/-- Witness for C10 (amended): a regular value formats, the default
sentinel `-1` renders "N/A", an infinite value yields `inf%` on the
percent branch, a non-float `NaN` yields `nan%` there, and the totality
clause holds at a concrete non-infinite value. -/
theorem format_value_behavior_witness :
    format_value (.num 5) "$" "" (some (-1)) = .ok (formatNumber 5 "$" "") ∧
    format_value (.num (-1)) "$" "" (some (-1)) = .ok "N/A" ∧
    format_value (.pinf false) "x" "%" (some (-1)) = .ok "inf%" ∧
    format_value .nanConv "x" "%" (some (-1)) = .ok "nan%" ∧
    (∃ s : String, format_value (.num 5) "$" "" (some (-1)) = .ok s) ∧
    formatNumber 5 "$" "" = "$5" := by
  have h1 : pytrunc 5 = 5 := by
    norm_num [pytrunc]
  have h2 : commaFmt 5 = "5" := by decide
  refine ⟨format_value_behavior.2.2.2.2.1 5 (-1) "$" "" (by norm_num),
    format_value_behavior.2.2.2.1 (-1) "$" "", ?_, ?_, ?_, ?_⟩
  · have h := format_value_behavior.2.2.2.2.2.2.2.1 false "x" (some (-1))
      (by decide)
    simpa using h
  · exact format_value_behavior.2.2.2.2.2.2.2.2.2.2.1 "x" (some (-1)) (by decide)
  · exact format_value_behavior.2.2.2.2.2.2.2.2.2.2.2.2 (.num 5) "$" ""
      (some (-1)) (fun b h => by cases h)
  · simp [formatNumber, h1, h2]
